import Mathlib

/-!
Verification of the Dutch-language-agents coaching dispatcher
(`ai_agents.py`): a shallow embedding of the script's startup sequence,
the four module-level agent definitions, and the four button handlers,
together with proofs of the specified properties.
-/

namespace DutchAgents

/-- Composio actions requested at startup (`ai_agents.py` lines 44-45). -/
inductive ComposioAction where
  | GOOGLEDOCS_CREATE_DOCUMENT
  | GOOGLEDOCS_UPDATE_EXISTING_DOCUMENT
  deriving DecidableEq

/-- A tool handle as returned by the Composio toolset: identified by the
action it was requested for plus an index distinguishing handles. -/
structure Tool where
  action : ComposioAction
  id : Nat
  deriving DecidableEq

/-- The model configuration `OpenAIChat(id="gpt-4o-mini", api_key=...)`. -/
structure OpenAIChat where
  id : String
  api_key : String
  deriving DecidableEq

/-- The configuration record of an `Agent(...)` construction: name, role,
model, tools, instructions and the two boolean options. -/
structure AgentDefinition where
  name : String
  role : String
  model : OpenAIChat
  tools : List Tool
  instructions : List String
  show_tool_calls : Bool
  markdown : Bool
  deriving DecidableEq

/-- The response object returned by `agent.run(...)`; the dispatcher only
reads its `content` field. -/
structure RunResponse where
  content : String
  deriving DecidableEq

/-- Streamlit session state fields used by the script
(`ai_agents.py` lines 13-22). -/
structure SessionState where
  openai_api_key : String
  composio_api_key : String
  serpapi_api_key : String
  daily_input : String
  weekly_summary : String
  deriving DecidableEq

/-- Agent 1, "Dutch Vocabulary Teacher" (`ai_agents.py` lines 63-83). -/
def daily_coach_agent (openai_api_key : String) (google_docs_tool : Tool) :
    AgentDefinition :=
  { name := "Dutch Vocabulary Teacher"
    role := "Dutch Vocabulary Teacher"
    model := { id := "gpt-4o-mini", api_key := openai_api_key }
    tools := [google_docs_tool]
    instructions := [
      "Teach the user 5 to 10 new important Dutch words or phrases daily that are useful for Dutch-speaking job interviews.",
      "For each word or phrase, provide:",
      "- The Dutch word/phrase",
      "- English translation",
      "- Example sentence in Dutch",
      "- English translation of the example sentence",
      "- Quick tip on when to use it (formally, casually, common interview situations)",
      "Be supportive, motivating, and realistic.",
      "After generating the feedback, use the provided Google Docs tool to create a real Google Document with the content you wrote. Then include the actual Google Doc link in your final response.",
      "Make sure to include the link to the Google Doc in your response.",
      "Use the Google Docs tool to create a new document for each daily feedback session."]
    show_tool_calls := true
    markdown := true }

/-- Agent 2, "Dutch Grammar Coach" (`ai_agents.py` lines 86-101). -/
def language_assessor_agent (openai_api_key : String) (google_docs_tool : Tool) :
    AgentDefinition :=
  { name := "Dutch Grammar Coach"
    role := "Dutch Grammar Coach"
    model := { id := "gpt-4o-mini", api_key := openai_api_key }
    tools := [google_docs_tool]
    instructions := [
      "Teach the user 1 key Dutch grammar topic daily that is important for Dutch-speaking job interviews.",
      "Explain the grammar concept in simple Dutch, and also add an English explanation.",
      "Give at least 3 Dutch example sentences using the grammar rule, with English translations.",
      "Provide a few short exercises (fill in the blanks, correct the sentence, etc.) based on the topic.",
      "Create a well-formatted Google Doc with today\x27s grammar lesson and exercises.",
      "Return the real Google Doc link to the user."]
    show_tool_calls := true
    markdown := true }

/-- Agent 3, "Weekly Language Planner" (`ai_agents.py` lines 104-118). -/
def weekly_planner_agent (openai_api_key : String) (google_docs_tool : Tool) :
    AgentDefinition :=
  { name := "Weekly Language Planner"
    role := "Dutch Learning Tracker and Planner"
    model := { id := "gpt-4o-mini", api_key := openai_api_key }
    tools := [google_docs_tool]
    instructions := [
      "Track the user\x27s Dutch learning journey: topics mastered, new vocabulary learned, common mistakes identified.",
      "Create a clear weekly study plan: topics to review, new topics to study, and daily activities.",
      "Organize the plan in a simple weekly schedule format.",
      "Align all planning with the user\x27s goal to prepare for Dutch-speaking job interviews at B1 level fluency.",
      "Store the weekly plan in a Google Doc and include the link in the response."]
    show_tool_calls := true
    markdown := true }

/-- Agent 4, "Virtual Dutch Partner" (`ai_agents.py` lines 121-136). -/
def virtual_partner_agent (openai_api_key : String) (google_docs_tool : Tool) :
    AgentDefinition :=
  { name := "Virtual Dutch Partner"
    role := "Dutch Conversation Practice Simulator"
    model := { id := "gpt-4o-mini", api_key := openai_api_key }
    tools := [google_docs_tool]
    instructions := [
      "Simulate a realistic Dutch conversation based on job interviews or daily life topics.",
      "Adjust conversation difficulty to user\x27s current level.",
      "Correct grammar, vocabulary, and structure politely and explain corrections.",
      "Suggest useful expressions or structures to sound more natural.",
      "Summarize the conversation, list key mistakes and suggestions for improvement.",
      "Store the conversation summary in a Google Doc and include the link in the response."]
    show_tool_calls := true
    markdown := true }

/-- The four module-level agent bindings, collected as the agent registry. -/
structure Registry where
  daily_coach_agent : AgentDefinition
  language_assessor_agent : AgentDefinition
  weekly_planner_agent : AgentDefinition
  virtual_partner_agent : AgentDefinition
  deriving DecidableEq

/-- Construction of the four module-level `Agent(...)` records
(`ai_agents.py` lines 63-136): every agent receives the same model id, the
same API key, and the single tool `google_docs_tool`. -/
def buildAgents (openai_api_key : String) (google_docs_tool : Tool) : Registry :=
  { daily_coach_agent := daily_coach_agent openai_api_key google_docs_tool
    language_assessor_agent := language_assessor_agent openai_api_key google_docs_tool
    weekly_planner_agent := weekly_planner_agent openai_api_key google_docs_tool
    virtual_partner_agent := virtual_partner_agent openai_api_key google_docs_tool }

/-- Outcome of running the script top-to-bottom up to the agent
constructions: either `st.stop()` was reached after an `st.error` message,
or the four agents were constructed. -/
inductive StartupOutcome where
  | stopped (errorMessage : String)
  | ready (registry : Registry)
  deriving DecidableEq

/-- Script startup (`ai_agents.py` lines 33-136): the API-key check, the
Composio tool initialization inside try/except (each `get_tools` call may
raise, modelled as `Except`), the emptiness checks on both tool lists, the
selection of element 0 of each list, and finally the four module-level
agent constructions. -/
def startup (openai_api_key composio_api_key : String)
    (get_create_tools get_update_tools : Except String (List Tool)) :
    StartupOutcome :=
  if openai_api_key = "" ∨ composio_api_key = "" then
    .stopped "Please enter your OpenAI and Composio API keys."
  else
    match get_create_tools with
    | .error e => .stopped ("❌ Error initializing Composio tools: " ++ e)
    | .ok create_tools =>
      match get_update_tools with
      | .error e => .stopped ("❌ Error initializing Composio tools: " ++ e)
      | .ok update_tools =>
        match create_tools with
        | [] => .stopped "❌ Could not find the Google Docs Create Document tool. Check if Google Docs is connected in Composio."
        | google_docs_tool :: _ =>
          match update_tools with
          | [] => .stopped "❌ Could not find the Google Docs Update Document tool. Check if Google Docs is connected in Composio."
          | _ :: _ => .ready (buildAgents openai_api_key google_docs_tool)

/-- One user-visible Streamlit output emitted by a button handler. -/
inductive UIEvent where
  | errorMsg (msg : String)
  | successMsg (msg : String)
  | markdownOut (text : String)
  deriving DecidableEq

/-- One synchronous call to `agent.run(message, stream=False)`. -/
structure AgentCall where
  agent : AgentDefinition
  message : String
  deriving DecidableEq

/-- The observable effects of one button-handler execution: the external
agent calls it made, the UI events it emitted, and the session state it
left behind. -/
structure HandlerResult where
  calls : List AgentCall
  ui : List UIEvent
  finalState : SessionState
  deriving DecidableEq

/-- "Run Daily Language Coach" button handler (`ai_agents.py` lines
150-160): `if not st.session_state[daily_input]` rejects exactly the empty
string (Python string truthiness); otherwise one call to
`daily_coach_agent.run` followed by success, header, and the response
content rendered verbatim. -/
def runDailyLanguageCoach (openai_api_key : String) (google_docs_tool : Tool)
    (run : AgentDefinition → String → RunResponse) (st : SessionState) :
    HandlerResult :=
  if st.daily_input = "" then
    { calls := []
      ui := [.errorMsg "Please enter your daily input first."]
      finalState := st }
  else
    let agent := daily_coach_agent openai_api_key google_docs_tool
    let daily_coach_response := run agent st.daily_input
    { calls := [{ agent := agent, message := st.daily_input }]
      ui := [.successMsg "✅ Feedback generated!",
             .markdownOut "### Google Doc Link:",
             .markdownOut daily_coach_response.content]
      finalState := st }

/-- "Run Language Assessor" button handler (`ai_agents.py` lines 162-172):
same validation on `daily_input`, routed to `language_assessor_agent`. -/
def runLanguageAssessor (openai_api_key : String) (google_docs_tool : Tool)
    (run : AgentDefinition → String → RunResponse) (st : SessionState) :
    HandlerResult :=
  if st.daily_input = "" then
    { calls := []
      ui := [.errorMsg "Please enter your daily input first."]
      finalState := st }
  else
    let agent := language_assessor_agent openai_api_key google_docs_tool
    let assessor_response := run agent st.daily_input
    { calls := [{ agent := agent, message := st.daily_input }]
      ui := [.successMsg "✅ Assessment complete!",
             .markdownOut "### Google Doc Link:",
             .markdownOut assessor_response.content]
      finalState := st }

/-- The fixed prompt sent by the "Practice Dutch Conversation" handler
(`ai_agents.py` lines 176-179). -/
def fixedConversationPrompt : String :=
  "Let\x27s simulate a Dutch conversation based on today\x27s practice. Focus on realistic interaction and interview style."

/-- "Practice Dutch Conversation" button handler (`ai_agents.py` lines
174-184): no input validation; one call to `virtual_partner_agent.run`
with the fixed prompt. -/
def practiceDutchConversation (openai_api_key : String) (google_docs_tool : Tool)
    (run : AgentDefinition → String → RunResponse) (st : SessionState) :
    HandlerResult :=
  let agent := virtual_partner_agent openai_api_key google_docs_tool
  let conversation_response := run agent fixedConversationPrompt
  { calls := [{ agent := agent, message := fixedConversationPrompt }]
    ui := [.successMsg "✅ Conversation complete!",
           .markdownOut "### Google Doc Link:",
           .markdownOut conversation_response.content]
    finalState := st }

/-- "Generate Weekly Plan" button handler (`ai_agents.py` lines 195-205):
validation on `weekly_summary`, routed to `weekly_planner_agent`. -/
def generateWeeklyPlan (openai_api_key : String) (google_docs_tool : Tool)
    (run : AgentDefinition → String → RunResponse) (st : SessionState) :
    HandlerResult :=
  if st.weekly_summary = "" then
    { calls := []
      ui := [.errorMsg "Please enter your weekly summary first."]
      finalState := st }
  else
    let agent := weekly_planner_agent openai_api_key google_docs_tool
    let weekly_response := run agent st.weekly_summary
    { calls := [{ agent := agent, message := st.weekly_summary }]
      ui := [.successMsg "✅ Weekly plan created!",
             .markdownOut "### Google Doc Link:",
             .markdownOut weekly_response.content]
      finalState := st }

/-- Registry lookup outcome: a found definition or `UnknownRoleError`. -/
inductive LookupOutcome where
  | ok (agent : AgentDefinition)
  | unknownRoleError
  deriving DecidableEq

/-- Modelled from the spec: the script defines the four agents as
module-level bindings but no lookup function exists under `src/`; the spec
contract is `get(role_name) -> AgentDefinition`, failing with
`UnknownRoleError` for a name outside the four registered roles
(Vocabulary Teacher, Grammar Coach, Weekly Planner, Conversation
Partner). Pure, no side effects. -/
def Registry.get (r : Registry) (role_name : String) : LookupOutcome :=
  if role_name = "Vocabulary Teacher" then .ok r.daily_coach_agent
  else if role_name = "Grammar Coach" then .ok r.language_assessor_agent
  else if role_name = "Weekly Planner" then .ok r.weekly_planner_agent
  else if role_name = "Conversation Partner" then .ok r.virtual_partner_agent
  else .unknownRoleError

/-- A concrete document-creation tool handle, used in witnesses. -/
def toolCreate : Tool := { action := .GOOGLEDOCS_CREATE_DOCUMENT, id := 0 }

/-- A concrete document-update tool handle, used in witnesses. -/
def toolUpdate : Tool := { action := .GOOGLEDOCS_UPDATE_EXISTING_DOCUMENT, id := 1 }

/-- A stub agent runner returning a fixed document link, used in
witnesses. -/
def stubRun : AgentDefinition → String → RunResponse :=
  fun _ _ => { content := "Doc: https://docs.example/abc" }

/-- A session state with both input fields empty. -/
def sessionEmpty : SessionState :=
  { openai_api_key := "sk-test"
    composio_api_key := "cp-test"
    serpapi_api_key := ""
    daily_input := ""
    weekly_summary := "" }

/-- A session state with both input fields filled. -/
def sessionFilled : SessionState :=
  { openai_api_key := "sk-test"
    composio_api_key := "cp-test"
    serpapi_api_key := ""
    daily_input := "Ik heb vandaag vijf nieuwe woorden geleerd."
    weekly_summary := "This week I learned about verb conjugations and practiced speaking about my hobbies." }

/-- A session state whose input fields hold only whitespace characters. -/
def sessionBlank : SessionState :=
  { openai_api_key := "sk-test"
    composio_api_key := "cp-test"
    serpapi_api_key := ""
    daily_input := "   "
    weekly_summary := "\t " }

/-- C1: for each of the three operations with a required text input
(daily coach, language assessor, weekly plan), invoking with empty input
reports a validation error, aborts the operation, and makes no external
agent call: the agent-invocation collaborator is never invoked. -/
theorem C1_empty_input_aborts_without_call
    (openai_api_key : String) (google_docs_tool : Tool)
    (run : AgentDefinition → String → RunResponse) (st : SessionState)
    (hd : st.daily_input = "") (hw : st.weekly_summary = "") :
    (runDailyLanguageCoach openai_api_key google_docs_tool run st).calls = [] ∧
    (runDailyLanguageCoach openai_api_key google_docs_tool run st).ui =
      [.errorMsg "Please enter your daily input first."] ∧
    (runLanguageAssessor openai_api_key google_docs_tool run st).calls = [] ∧
    (runLanguageAssessor openai_api_key google_docs_tool run st).ui =
      [.errorMsg "Please enter your daily input first."] ∧
    (generateWeeklyPlan openai_api_key google_docs_tool run st).calls = [] ∧
    (generateWeeklyPlan openai_api_key google_docs_tool run st).ui =
      [.errorMsg "Please enter your weekly summary first."] := by
  simp [runDailyLanguageCoach, runLanguageAssessor, generateWeeklyPlan, hd, hw]

/-- C1 witness: concrete empty-input session, stub runner. -/
theorem C1_empty_input_aborts_without_call_witness :
    (runDailyLanguageCoach "sk-test" toolCreate stubRun sessionEmpty).calls = [] :=
  (C1_empty_input_aborts_without_call "sk-test" toolCreate stubRun sessionEmpty rfl rfl).1

/-- C2: for every operation and every successful agent response, the
textual content surfaced to the caller is exactly the response content:
the final markdown output is the content field of `run agent message`,
unmodified. -/
theorem C2_content_surfaced_verbatim
    (openai_api_key : String) (google_docs_tool : Tool)
    (run : AgentDefinition → String → RunResponse) (st : SessionState)
    (hd : st.daily_input ≠ "") (hw : st.weekly_summary ≠ "") :
    (runDailyLanguageCoach openai_api_key google_docs_tool run st).ui =
      [.successMsg "✅ Feedback generated!",
       .markdownOut "### Google Doc Link:",
       .markdownOut (run (daily_coach_agent openai_api_key google_docs_tool)
          st.daily_input).content] ∧
    (runLanguageAssessor openai_api_key google_docs_tool run st).ui =
      [.successMsg "✅ Assessment complete!",
       .markdownOut "### Google Doc Link:",
       .markdownOut (run (language_assessor_agent openai_api_key google_docs_tool)
          st.daily_input).content] ∧
    (practiceDutchConversation openai_api_key google_docs_tool run st).ui =
      [.successMsg "✅ Conversation complete!",
       .markdownOut "### Google Doc Link:",
       .markdownOut (run (virtual_partner_agent openai_api_key google_docs_tool)
          fixedConversationPrompt).content] ∧
    (generateWeeklyPlan openai_api_key google_docs_tool run st).ui =
      [.successMsg "✅ Weekly plan created!",
       .markdownOut "### Google Doc Link:",
       .markdownOut (run (weekly_planner_agent openai_api_key google_docs_tool)
          st.weekly_summary).content] := by
  simp [runDailyLanguageCoach, runLanguageAssessor, practiceDutchConversation,
    generateWeeklyPlan, hd, hw]

/-- C2 witness: concrete filled session, stub runner returning a fixed
document link. -/
theorem C2_content_surfaced_verbatim_witness :
    (runDailyLanguageCoach "sk-test" toolCreate stubRun sessionFilled).ui =
      [.successMsg "✅ Feedback generated!",
       .markdownOut "### Google Doc Link:",
       .markdownOut "Doc: https://docs.example/abc"] :=
  (C2_content_surfaced_verbatim "sk-test" toolCreate stubRun sessionFilled
    (by decide) (by decide)).1

/-- C3: each user action maps 1 to 1 to its designated agent and performs
exactly one synchronous agent invocation, with the input text as the sole
message: the call trace of each handler is exactly one call to its own
agent. -/
theorem C3_one_call_per_action_to_designated_agent
    (openai_api_key : String) (google_docs_tool : Tool)
    (run : AgentDefinition → String → RunResponse) (st : SessionState)
    (hd : st.daily_input ≠ "") (hw : st.weekly_summary ≠ "") :
    (runDailyLanguageCoach openai_api_key google_docs_tool run st).calls =
      [{ agent := daily_coach_agent openai_api_key google_docs_tool,
         message := st.daily_input }] ∧
    (runLanguageAssessor openai_api_key google_docs_tool run st).calls =
      [{ agent := language_assessor_agent openai_api_key google_docs_tool,
         message := st.daily_input }] ∧
    (practiceDutchConversation openai_api_key google_docs_tool run st).calls =
      [{ agent := virtual_partner_agent openai_api_key google_docs_tool,
         message := fixedConversationPrompt }] ∧
    (generateWeeklyPlan openai_api_key google_docs_tool run st).calls =
      [{ agent := weekly_planner_agent openai_api_key google_docs_tool,
         message := st.weekly_summary }] := by
  simp [runDailyLanguageCoach, runLanguageAssessor, practiceDutchConversation,
    generateWeeklyPlan, hd, hw]

/-- C3 witness: concrete filled session, stub runner. -/
theorem C3_one_call_per_action_to_designated_agent_witness :
    (runDailyLanguageCoach "sk-test" toolCreate stubRun sessionFilled).calls =
      [{ agent := daily_coach_agent "sk-test" toolCreate,
         message := "Ik heb vandaag vijf nieuwe woorden geleerd." }] :=
  (C3_one_call_per_action_to_designated_agent "sk-test" toolCreate stubRun
    sessionFilled (by decide) (by decide)).1

/-- C4: `practiceDutchConversation` requires no input and sends one fixed
prompt; two sequential invocations (with possibly different external
behaviours) each make one independent call receiving exactly the same
fixed prompt, and no state flows from one call to the next. -/
theorem C4_conversation_fixed_prompt_independent_calls
    (openai_api_key : String) (google_docs_tool : Tool)
    (run1 run2 : AgentDefinition → String → RunResponse) (st : SessionState) :
    (practiceDutchConversation openai_api_key google_docs_tool run1 st).calls =
      [{ agent := virtual_partner_agent openai_api_key google_docs_tool,
         message := fixedConversationPrompt }] ∧
    (practiceDutchConversation openai_api_key google_docs_tool run2
        (practiceDutchConversation openai_api_key google_docs_tool run1 st).finalState).calls =
      [{ agent := virtual_partner_agent openai_api_key google_docs_tool,
         message := fixedConversationPrompt }] ∧
    (practiceDutchConversation openai_api_key google_docs_tool run2
        (practiceDutchConversation openai_api_key google_docs_tool run1 st).finalState).finalState
      = st := by
  simp [practiceDutchConversation]

/-- C5: startup fails fast when a credential is missing, when obtaining
either tool list raises, or when either tool list comes back empty: the
script stops and no agent is constructed (no partial registry). -/
theorem C5_startup_fails_fast
    (openai_api_key composio_api_key : String)
    (get_create_tools get_update_tools : Except String (List Tool))
    (h : openai_api_key = "" ∨ composio_api_key = "" ∨
         (∃ e, get_create_tools = .error e) ∨ (∃ e, get_update_tools = .error e) ∨
         get_create_tools = .ok [] ∨ get_update_tools = .ok []) :
    ∃ msg, startup openai_api_key composio_api_key get_create_tools get_update_tools =
      .stopped msg := by
  unfold startup
  by_cases hk : openai_api_key = "" ∨ composio_api_key = ""
  · rw [if_pos hk]; exact ⟨_, rfl⟩
  · rw [if_neg hk]
    rcases get_create_tools with ec | cts
    · exact ⟨_, rfl⟩
    · rcases get_update_tools with eu | uts
      · exact ⟨_, rfl⟩
      · rcases cts with _ | ⟨c0, crest⟩
        · exact ⟨_, rfl⟩
        · rcases uts with _ | ⟨u0, urest⟩
          · exact ⟨_, rfl⟩
          · exfalso
            rcases h with h | h | ⟨e, he⟩ | ⟨e, he⟩ | h | h
            · exact hk (Or.inl h)
            · exact hk (Or.inr h)
            · exact Except.noConfusion he
            · exact Except.noConfusion he
            · exact List.noConfusion (Except.ok.inj h)
            · exact List.noConfusion (Except.ok.inj h)

/-- C5 witness: missing model-provider credential. -/
theorem C5_startup_fails_fast_witness :
    ∃ msg, startup "" "cp-test" (.ok [toolCreate]) (.ok [toolUpdate]) = .stopped msg :=
  C5_startup_fails_fast "" "cp-test" (.ok [toolCreate]) (.ok [toolUpdate]) (Or.inl rfl)

/-- C6: registry lookup returns a distinct AgentDefinition for each of
the four known role names and fails with UnknownRoleError, with no side
effects, for any other name (the lookup is a pure function). -/
theorem C6_registry_lookup_four_roles
    (openai_api_key : String) (google_docs_tool : Tool) :
    ((buildAgents openai_api_key google_docs_tool).get "Vocabulary Teacher" =
       .ok (daily_coach_agent openai_api_key google_docs_tool) ∧
     (buildAgents openai_api_key google_docs_tool).get "Grammar Coach" =
       .ok (language_assessor_agent openai_api_key google_docs_tool) ∧
     (buildAgents openai_api_key google_docs_tool).get "Weekly Planner" =
       .ok (weekly_planner_agent openai_api_key google_docs_tool) ∧
     (buildAgents openai_api_key google_docs_tool).get "Conversation Partner" =
       .ok (virtual_partner_agent openai_api_key google_docs_tool)) ∧
    (daily_coach_agent openai_api_key google_docs_tool ≠
       language_assessor_agent openai_api_key google_docs_tool ∧
     daily_coach_agent openai_api_key google_docs_tool ≠
       weekly_planner_agent openai_api_key google_docs_tool ∧
     daily_coach_agent openai_api_key google_docs_tool ≠
       virtual_partner_agent openai_api_key google_docs_tool ∧
     language_assessor_agent openai_api_key google_docs_tool ≠
       weekly_planner_agent openai_api_key google_docs_tool ∧
     language_assessor_agent openai_api_key google_docs_tool ≠
       virtual_partner_agent openai_api_key google_docs_tool ∧
     weekly_planner_agent openai_api_key google_docs_tool ≠
       virtual_partner_agent openai_api_key google_docs_tool) ∧
    (∀ role_name : String,
      role_name ∉ ["Vocabulary Teacher", "Grammar Coach", "Weekly Planner",
        "Conversation Partner"] →
      (buildAgents openai_api_key google_docs_tool).get role_name =
        .unknownRoleError) := by
  have hname : ∀ a b : AgentDefinition, a.name ≠ b.name → a ≠ b :=
    fun a b hn h => hn (congrArg AgentDefinition.name h)
  refine ⟨⟨?_, ?_, ?_, ?_⟩, ⟨?_, ?_, ?_, ?_, ?_, ?_⟩, ?_⟩
  · simp [Registry.get, buildAgents]
  · simp [Registry.get, buildAgents]
  · simp [Registry.get, buildAgents]
  · simp [Registry.get, buildAgents]
  · exact hname _ _ (by simp [daily_coach_agent, language_assessor_agent])
  · exact hname _ _ (by simp [daily_coach_agent, weekly_planner_agent])
  · exact hname _ _ (by simp [daily_coach_agent, virtual_partner_agent])
  · exact hname _ _ (by simp [language_assessor_agent, weekly_planner_agent])
  · exact hname _ _ (by simp [language_assessor_agent, virtual_partner_agent])
  · exact hname _ _ (by simp [weekly_planner_agent, virtual_partner_agent])
  · intro role_name hmem
    simp only [List.mem_cons, List.mem_singleton, not_or] at hmem
    obtain ⟨h1, h2, h3, h4⟩ := hmem
    simp [Registry.get, h1, h2, h3, h4]

/-- C6 witness: a role name outside the four registered ones fails. -/
theorem C6_registry_lookup_four_roles_witness :
    (buildAgents "sk-test" toolCreate).get "Docs Manager" = .unknownRoleError :=
  (C6_registry_lookup_four_roles "sk-test" toolCreate).2.2 "Docs Manager" (by decide)

/-- C7: every one of the four constructed AgentDefinitions holds exactly
one tool reference and a non-empty instruction list, for every credential
and tool handle with which they are constructed. -/
theorem C7_one_tool_nonempty_instructions
    (openai_api_key : String) (google_docs_tool : Tool) :
    ((daily_coach_agent openai_api_key google_docs_tool).tools.length = 1 ∧
     (daily_coach_agent openai_api_key google_docs_tool).instructions ≠ []) ∧
    ((language_assessor_agent openai_api_key google_docs_tool).tools.length = 1 ∧
     (language_assessor_agent openai_api_key google_docs_tool).instructions ≠ []) ∧
    ((weekly_planner_agent openai_api_key google_docs_tool).tools.length = 1 ∧
     (weekly_planner_agent openai_api_key google_docs_tool).instructions ≠ []) ∧
    ((virtual_partner_agent openai_api_key google_docs_tool).tools.length = 1 ∧
     (virtual_partner_agent openai_api_key google_docs_tool).instructions ≠ []) :=
  ⟨⟨rfl, List.cons_ne_nil _ _⟩, ⟨rfl, List.cons_ne_nil _ _⟩,
   ⟨rfl, List.cons_ne_nil _ _⟩, ⟨rfl, List.cons_ne_nil _ _⟩⟩

/-- C8: executing any of the four handlers leaves the session state, and
in particular both input-text fields, unchanged: the dispatcher never
writes the per-session input texts. -/
theorem C8_handlers_leave_inputs_unchanged
    (openai_api_key : String) (google_docs_tool : Tool)
    (run : AgentDefinition → String → RunResponse) (st : SessionState) :
    (runDailyLanguageCoach openai_api_key google_docs_tool run st).finalState = st ∧
    (runLanguageAssessor openai_api_key google_docs_tool run st).finalState = st ∧
    (practiceDutchConversation openai_api_key google_docs_tool run st).finalState = st ∧
    (generateWeeklyPlan openai_api_key google_docs_tool run st).finalState = st := by
  unfold runDailyLanguageCoach runLanguageAssessor practiceDutchConversation
    generateWeeklyPlan
  refine ⟨?_, ?_, rfl, ?_⟩ <;> split <;> rfl

/-- C9: when startup succeeds, both tool handles were obtained and
validated, but the registry is built from the creation tool alone: every
one of the four agents holds exactly the single creation-tool instance,
and the update tool is bound to none of them. -/
theorem C9_update_tool_never_bound
    (openai_api_key composio_api_key : String)
    (google_docs_tool google_docs_tool_update : Tool)
    (create_rest update_rest : List Tool)
    (hok : openai_api_key ≠ "") (hck : composio_api_key ≠ "")
    (hne : google_docs_tool_update ≠ google_docs_tool) :
    startup openai_api_key composio_api_key
        (.ok (google_docs_tool :: create_rest))
        (.ok (google_docs_tool_update :: update_rest)) =
      .ready (buildAgents openai_api_key google_docs_tool) ∧
    ((buildAgents openai_api_key google_docs_tool).daily_coach_agent.tools =
       [google_docs_tool] ∧
     (buildAgents openai_api_key google_docs_tool).language_assessor_agent.tools =
       [google_docs_tool] ∧
     (buildAgents openai_api_key google_docs_tool).weekly_planner_agent.tools =
       [google_docs_tool] ∧
     (buildAgents openai_api_key google_docs_tool).virtual_partner_agent.tools =
       [google_docs_tool]) ∧
    (google_docs_tool_update ∉
       (buildAgents openai_api_key google_docs_tool).daily_coach_agent.tools ∧
     google_docs_tool_update ∉
       (buildAgents openai_api_key google_docs_tool).language_assessor_agent.tools ∧
     google_docs_tool_update ∉
       (buildAgents openai_api_key google_docs_tool).weekly_planner_agent.tools ∧
     google_docs_tool_update ∉
       (buildAgents openai_api_key google_docs_tool).virtual_partner_agent.tools) := by
  refine ⟨?_, ⟨rfl, rfl, rfl, rfl⟩, ?_, ?_, ?_, ?_⟩
  · unfold startup
    rw [if_neg (by simp [hok, hck])]
  all_goals
    simp [buildAgents, daily_coach_agent, language_assessor_agent,
      weekly_planner_agent, virtual_partner_agent, hne]

/-- C9 witness: concrete distinct create and update handles. -/
theorem C9_update_tool_never_bound_witness :
    startup "sk-test" "cp-test" (.ok [toolCreate]) (.ok [toolUpdate]) =
      .ready (buildAgents "sk-test" toolCreate) :=
  (C9_update_tool_never_bound "sk-test" "cp-test" toolCreate toolUpdate [] []
    (by decide) (by decide) (by decide)).1

/-- C10: the empty-input precondition is Python truthiness of the
untrimmed text: any non-empty input, including one made only of
whitespace characters, passes validation and is sent verbatim to the
agent; a handler makes no call exactly when its input is the empty
string. -/
theorem C10_untrimmed_truthiness_check
    (openai_api_key : String) (google_docs_tool : Tool)
    (run : AgentDefinition → String → RunResponse) (st : SessionState)
    (hd : st.daily_input ≠ "" ∧ ∀ c ∈ st.daily_input.toList, c.isWhitespace)
    (hw : st.weekly_summary ≠ "" ∧ ∀ c ∈ st.weekly_summary.toList, c.isWhitespace) :
    ((runDailyLanguageCoach openai_api_key google_docs_tool run st).calls =
      [{ agent := daily_coach_agent openai_api_key google_docs_tool,
         message := st.daily_input }]) ∧
    ((runLanguageAssessor openai_api_key google_docs_tool run st).calls =
      [{ agent := language_assessor_agent openai_api_key google_docs_tool,
         message := st.daily_input }]) ∧
    ((generateWeeklyPlan openai_api_key google_docs_tool run st).calls =
      [{ agent := weekly_planner_agent openai_api_key google_docs_tool,
         message := st.weekly_summary }]) ∧
    (∀ st2 : SessionState,
      ((runDailyLanguageCoach openai_api_key google_docs_tool run st2).calls = [] ↔
        st2.daily_input = "") ∧
      ((runLanguageAssessor openai_api_key google_docs_tool run st2).calls = [] ↔
        st2.daily_input = "") ∧
      ((generateWeeklyPlan openai_api_key google_docs_tool run st2).calls = [] ↔
        st2.weekly_summary = "")) := by
  refine ⟨?_, ?_, ?_, ?_⟩
  · simp [runDailyLanguageCoach, hd.1]
  · simp [runLanguageAssessor, hd.1]
  · simp [generateWeeklyPlan, hw.1]
  · intro st2
    refine ⟨?_, ?_, ?_⟩ <;>
      [by_cases h2 : st2.daily_input = ""; by_cases h2 : st2.daily_input = "";
       by_cases h2 : st2.weekly_summary = ""] <;>
      simp [runDailyLanguageCoach, runLanguageAssessor, generateWeeklyPlan, h2]

/-- C10 witness: a whitespace-only daily input passes validation and is
sent to the agent untrimmed. -/
theorem C10_untrimmed_truthiness_check_witness :
    (runDailyLanguageCoach "sk-test" toolCreate stubRun sessionBlank).calls =
      [{ agent := daily_coach_agent "sk-test" toolCreate, message := "   " }] :=
  (C10_untrimmed_truthiness_check "sk-test" toolCreate stubRun sessionBlank
    (by decide) (by decide)).1

end DutchAgents
